import Mathlib

/-!
Shallow embedding of the gam_300 engine lifecycle orchestrator
(`GameManager.cpp`) and the `Clock` utility (`Clock.h`).

The GameManager is modelled as a pure state machine: its private fields
`m_game_over` and `m_step_count` form the state, and every externally
observable effect (subsystem startUp/shutDown calls, writeLog calls,
registerSystem, loadScene/saveScene, updateSystems dispatch) is recorded in
an event trace returned alongside the new state.  Outcomes of the external
collaborators (whether each subsystem's startUp succeeds, whether
registerSystem returns null, whether each loadScene succeeds, whether the
escape key is just pressed) are supplied by an environment record, since
they are inputs to the code under verification, not part of it.
-/

namespace gam300

/-- The four subsystems started by GameManager::startUp, in registration
order: diagnostic sink (LogManager), input (InputManager), entity-component
(ECSManager), persistence (SerialisationManager). -/
inductive Subsys
  | log
  | input
  | ecs
  | serial
deriving DecidableEq

/-- One writeLog call site of GameManager.cpp, identified by its message. -/
inductive LogMsg
  | logStarted
  | inputStarted
  | ecsStarted
  | serialStarted
  | inputStartFailed
  | ecsStartFailed
  | serialStartFailed
  | inputSystemRegistered
  | inputSystemRegFailed
  | sceneLoaded
  | sceneLoadFailed
  | defaultSceneLoaded
  | defaultSceneLoadWarning
  | stepCountIs (n : Nat)
  | escapePressed
  | shuttingDown
  | gameOverSetTrue
deriving DecidableEq

/-- An externally observable effect performed by the GameManager. -/
inductive Ev
  | startOk (s : Subsys)
  | startFail (s : Subsys)
  | stop (s : Subsys)
  | logw (m : LogMsg)
  | saveSceneEv
  | loadSceneEv (ok : Bool)
  | regSystemEv (ok : Bool)
  | sysUpdate (dt : Int)
deriving DecidableEq

/-- The GameManager's own mutable fields: `m_game_over` and `m_step_count`
(a C++ int that is only ever reset to 0 or incremented, so a Nat). -/
structure GMState where
  m_game_over : Bool
  m_step_count : Nat
deriving DecidableEq

/-- Outcomes of the external collaborator calls made during one
GameManager::startUp run: whether Manager::startUp, each subsystem startUp,
registerSystem, and each of the (at most two) loadScene calls fail/succeed. -/
structure Env where
  parentFails : Bool
  logFails : Bool
  inputFails : Bool
  ecsFails : Bool
  serialFails : Bool
  regFails : Bool
  loadOk1 : Bool
  loadOk2 : Bool
deriving DecidableEq

/-- The subsystem startUp outcome recorded in the environment. -/
def Env.subFails (env : Env) : Subsys → Bool
  | .log => env.logFails
  | .input => env.inputFails
  | .ecs => env.ecsFails
  | .serial => env.serialFails

/-- The fixed registration order of GameManager::startUp. -/
def order : List Subsys := [.log, .input, .ecs, .serial]

/-- The k-th subsystem of the registration order, 0-indexed. -/
def subsysAt : Fin 4 → Subsys
  | 0 => .log
  | 1 => .input
  | 2 => .ecs
  | 3 => .serial

/-- GameManager::setGameOver(bool): assigns `m_game_over` and logs only when
the new value is true. -/
def setGameOver (st : GMState) (new_game_over : Bool) : GMState × List Ev :=
  ({ st with m_game_over := new_game_over },
   if new_game_over then [.logw .gameOverSetTrue] else [])

/-- GameManager::startUp(): starts Manager (parent), LogManager,
InputManager, ECSManager, SerialisationManager in order; on the first
failure it shuts the already-started subsystems down in reverse order and
returns -1.  After all four start, it registers the InputSystem (failure
logged, non-fatal) and loads the scene (on failure: save then one retried
load, a second failure logged as a warning, non-fatal), then resets
`m_step_count` to 0, clears `m_game_over`, and returns 0. -/
def startUp (env : Env) (st : GMState) : Int × GMState × List Ev :=
  if env.parentFails then (-1, st, []) else
  if env.logFails then (-1, st, [.startFail .log]) else
  let t1 : List Ev := [.startOk .log, .logw .logStarted]
  if env.inputFails then
    (-1, st, t1 ++ [.startFail .input, .logw .inputStartFailed, .stop .log]) else
  let t2 : List Ev := t1 ++ [.startOk .input, .logw .inputStarted]
  if env.ecsFails then
    (-1, st, t2 ++ [.startFail .ecs, .logw .ecsStartFailed,
                    .stop .input, .stop .log]) else
  let t3 : List Ev := t2 ++ [.startOk .ecs, .logw .ecsStarted]
  if env.serialFails then
    (-1, st, t3 ++ [.startFail .serial, .logw .serialStartFailed,
                    .stop .ecs, .stop .input, .stop .log]) else
  let t4 : List Ev := t3 ++ [.startOk .serial, .logw .serialStarted]
  let t5 : List Ev := t4 ++
    (if env.regFails then [.regSystemEv false, .logw .inputSystemRegFailed]
     else [.regSystemEv true, .logw .inputSystemRegistered])
  let t6 : List Ev := t5 ++
    (if env.loadOk1 then [.loadSceneEv true, .logw .sceneLoaded]
     else [.loadSceneEv false, .logw .sceneLoadFailed, .saveSceneEv] ++
       (if env.loadOk2 then [.loadSceneEv true, .logw .defaultSceneLoaded]
        else [.loadSceneEv false, .logw .defaultSceneLoadWarning]))
  (0, { m_game_over := false, m_step_count := 0 }, t6)

/-- GameManager::update(float dt): increments `m_step_count`, logs the step
count when it is divisible by 100, calls setGameOver(true) plus a log line
when the escape key is just pressed, and always forwards dt to
ECSManager::updateSystems.  `escJustPressed` is the value returned by
InputManager::isKeyJustPressed(GLFW_KEY_ESCAPE) during this call. -/
def update (escJustPressed : Bool) (st : GMState) (dt : Int) : GMState × List Ev :=
  let st1 : GMState := { st with m_step_count := st.m_step_count + 1 }
  let t1 : List Ev :=
    if st1.m_step_count % 100 = 0 then [.logw (.stepCountIs st1.m_step_count)] else []
  let p : GMState × List Ev :=
    if escJustPressed then
      let q := setGameOver st1 true
      (q.1, q.2 ++ [.logw .escapePressed])
    else (st1, [])
  (p.1, t1 ++ p.2 ++ [.sysUpdate dt])

/-- GameManager::shutDown(): logs, calls setGameOver() (defaulted to true),
then shuts the four subsystems down in reverse registration order. -/
def shutDown (st : GMState) : GMState × List Ev :=
  let q := setGameOver st true
  (q.1, [.logw .shuttingDown] ++ q.2 ++
        [.stop .serial, .stop .ecs, .stop .input, .stop .log])

/-- The spec's `running` flag: the simulation keeps running while
`m_game_over` is false. -/
def running (st : GMState) : Bool := !st.m_game_over

/-- A public GameManager operation (the getters are pure and omitted).
startUp carries the collaborator outcomes for that call; upd carries the
escape-key state and the delta time for that call. -/
inductive Op
  | start (env : Env)
  | upd (esc : Bool) (dt : Int)
  | shut
  | setOver (g : Bool)
deriving DecidableEq

/-- Whether an operation is a startUp call. -/
def Op.isStart : Op → Bool
  | .start _ => true
  | _ => false

/-- The state transition of one public operation. -/
def stepOp (st : GMState) : Op → GMState × List Ev
  | .start env => ((startUp env st).2.1, (startUp env st).2.2)
  | .upd esc dt => update esc st dt
  | .shut => shutDown st
  | .setOver g => setGameOver st g

/-- Runs a sequence of public operations from a state. -/
def runOps (st : GMState) : List Op → GMState
  | [] => st
  | o :: rest => runOps (stepOp st o).1 rest

/-- The subsystems reported as successfully started in a trace, in order. -/
def startedOks (tr : List Ev) : List Subsys :=
  tr.filterMap fun e => match e with | .startOk s => some s | _ => none

/-- The subsystems shut down in a trace, in order. -/
def stops (tr : List Ev) : List Subsys :=
  tr.filterMap fun e => match e with | .stop s => some s | _ => none

/-- Whether subsystem s is running after the trace, starting from a state in
which no subsystem runs: a startOk turns it on, a stop turns it off. -/
def runningAfter (tr : List Ev) (s : Subsys) : Bool :=
  tr.foldl (fun b e => match e with
    | .startOk s2 => if s2 = s then true else b
    | .stop s2 => if s2 = s then false else b
    | _ => b) false

/-- The loadScene outcomes recorded in a trace, in order. -/
def loads (tr : List Ev) : List Bool :=
  tr.filterMap fun e => match e with | .loadSceneEv ok => some ok | _ => none

/-- The number of saveScene calls recorded in a trace. -/
def savesCount (tr : List Ev) : Nat :=
  (tr.filter fun e => match e with | .saveSceneEv => true | _ => false).length

/-- The heartbeat records (step-count log lines) in a trace, in order. -/
def heartbeats (tr : List Ev) : List Nat :=
  tr.filterMap fun e => match e with | .logw (.stepCountIs n) => some n | _ => none

/-- Modelled from the spec: Clock.cpp is not part of the excerpt, only
Clock.h is; the stored reference point `m_previous_time` comes from the
header.  The current monotonic time is an input: `none` models a
measurement failure, in which case -1 is returned (spec section 4.4). -/
structure Clock where
  m_previous_time : Int
deriving DecidableEq

/-- Modelled from the spec: Clock::delta() returns the elapsed microseconds
since the stored reference point, or -1 on measurement failure, and resets
the reference point to now. -/
def Clock.delta (c : Clock) (now : Option Int) : Int × Clock :=
  match now with
  | none => (-1, c)
  | some t => (t - c.m_previous_time, { m_previous_time := t })

/-- Modelled from the spec: Clock::split() const returns the elapsed
microseconds since the stored reference point, or -1 on measurement
failure, and does not reset the reference point (it is a const member). -/
def Clock.split (c : Clock) (now : Option Int) : Int × Clock :=
  match now with
  | none => (-1, c)
  | some t => (t - c.m_previous_time, c)

/-- An environment in which every collaborator call succeeds. -/
def envAllOk : Env :=
  { parentFails := false, logFails := false, inputFails := false,
    ecsFails := false, serialFails := false, regFails := false,
    loadOk1 := true, loadOk2 := true }

/-- An environment in which the ECSManager fails to start. -/
def envEcsFails : Env :=
  { parentFails := false, logFails := false, inputFails := false,
    ecsFails := true, serialFails := false, regFails := false,
    loadOk1 := true, loadOk2 := true }

/-- An environment in which the LogManager fails to start. -/
def envLogFails : Env :=
  { parentFails := false, logFails := true, inputFails := false,
    ecsFails := false, serialFails := false, regFails := false,
    loadOk1 := true, loadOk2 := true }

/-- An environment in which all four subsystems start but registerSystem
returns null and both loadScene calls fail. -/
def envRecover : Env :=
  { parentFails := false, logFails := false, inputFails := false,
    ecsFails := false, serialFails := false, regFails := true,
    loadOk1 := false, loadOk2 := false }

/-- Helper: a startUp run either succeeds with the reset state or fails
leaving the state untouched. -/
theorem startUp_cases (env : Env) (st : GMState) :
    ((startUp env st).1 = 0 ∧
      (startUp env st).2.1 = { m_game_over := false, m_step_count := 0 }) ∨
    ((startUp env st).1 = -1 ∧ (startUp env st).2.1 = st) := by
  unfold startUp
  split_ifs <;> simp

/-- Helper: a successful startUp run ends in the reset state. -/
theorem startUp_ok (env : Env) (st : GMState) (h : (startUp env st).1 = 0) :
    (startUp env st).2.1 = { m_game_over := false, m_step_count := 0 } := by
  rcases startUp_cases env st with ⟨_, h2⟩ | ⟨h1, _⟩
  · exact h2
  · rw [h] at h1; exact absurd h1 (by decide)

/-- C8: split never mutates the stored reference point: the Clock after a
split is the one before it, so a split placed between two delta calls
changes neither the result nor the state of the subsequent delta; a
successful delta does reset the reference point to now. -/
theorem c8_split_does_not_reset (c : Clock) (t1 t2 : Option Int) (t : Int) :
    (Clock.split c t1).2 = c ∧
    Clock.delta (Clock.split c t1).2 t2 = Clock.delta c t2 ∧
    (Clock.delta c (some t)).2.m_previous_time = t := by
  refine ⟨?_, ?_, rfl⟩ <;> cases t1 <;> rfl

/-- C4: on every update call the heartbeat records written during that call
are exactly one record reporting the post-increment step count when that
count is divisible by 100, and no record otherwise. -/
theorem c4_heartbeat (esc : Bool) (st : GMState) (dt : Int) :
    heartbeats (update esc st dt).2 =
      (if (update esc st dt).1.m_step_count % 100 = 0
       then [(update esc st dt).1.m_step_count] else []) := by
  cases esc <;>
    simp only [update, setGameOver, heartbeats] <;>
    split_ifs <;> simp_all [List.filterMap_append]

/-- C5: shutDown from any state, including one where startUp never ran,
sets running to false (the gameOverSetTrue effect of setGameOver precedes
every stop event in the trace), then stops the subsystems in the exact
reverse of the registration order, terminates, and leaves running false
with the step count untouched. -/
theorem c5_shutdown (st : GMState) :
    running (shutDown st).1 = false ∧
    (shutDown st).1.m_step_count = st.m_step_count ∧
    (shutDown st).2 =
      [.logw .shuttingDown, .logw .gameOverSetTrue,
       .stop .serial, .stop .ecs, .stop .input, .stop .log] ∧
    stops (shutDown st).2 = order.reverse := by
  refine ⟨?_, ?_, ?_, ?_⟩ <;> simp [shutDown, setGameOver, running, stops, order]

/-- C10: update never inspects the running flag: the trace is the same for
both values of the flag, the step count is always incremented by one, the
termination-key check always runs (the new flag is the old flag OR the key
state), and dt is always forwarded to the system-update dispatch. -/
theorem c10_update_ignores_running (b1 b2 : Bool) (n : Nat) (esc : Bool) (dt : Int) :
    (update esc ⟨b1, n⟩ dt).2 = (update esc ⟨b2, n⟩ dt).2 ∧
    (update esc ⟨b1, n⟩ dt).1.m_step_count = n + 1 ∧
    (update esc ⟨b1, n⟩ dt).1.m_game_over = (b1 || esc) ∧
    Ev.sysUpdate dt ∈ (update esc ⟨b1, n⟩ dt).2 := by
  cases esc <;> cases b1 <;>
    simp [update, setGameOver]

/-- C1: when the parent manager starts, every subsystem before the k-th
starts, and the k-th subsystem's startUp fails, then startUp returns -1,
exactly the subsystems before the k-th were started (none from the k-th
on), they are shut down in exactly the reverse of the registration order,
and no subsystem is left running. -/
theorem c1_startup_rollback (env : Env) (st : GMState) (k : Fin 4)
    (hpar : env.parentFails = false)
    (hpre : ∀ j : Fin 4, j < k → env.subFails (subsysAt j) = false)
    (hk : env.subFails (subsysAt k) = true) :
    (startUp env st).1 = -1 ∧
    startedOks (startUp env st).2.2 = order.take k ∧
    stops (startUp env st).2.2 = (order.take k).reverse ∧
    ∀ s : Subsys, runningAfter (startUp env st).2.2 s = false := by
  fin_cases k
  · have h0 : env.logFails = true := hk
    refine ⟨?_, ?_, ?_, ?_⟩ <;>
      simp [startUp, hpar, h0, order, startedOks, stops] <;>
      intro s <;> cases s <;> rfl
  · have h0 : env.logFails = false := hpre 0 (by decide)
    have h1 : env.inputFails = true := hk
    refine ⟨?_, ?_, ?_, ?_⟩ <;>
      simp [startUp, hpar, h0, h1, order, startedOks, stops] <;>
      intro s <;> cases s <;> rfl
  · have h0 : env.logFails = false := hpre 0 (by decide)
    have h1 : env.inputFails = false := hpre 1 (by decide)
    have h2 : env.ecsFails = true := hk
    refine ⟨?_, ?_, ?_, ?_⟩ <;>
      simp [startUp, hpar, h0, h1, h2, order, startedOks, stops] <;>
      intro s <;> cases s <;> rfl
  · have h0 : env.logFails = false := hpre 0 (by decide)
    have h1 : env.inputFails = false := hpre 1 (by decide)
    have h2 : env.ecsFails = false := hpre 2 (by decide)
    have h3 : env.serialFails = true := hk
    refine ⟨?_, ?_, ?_, ?_⟩ <;>
      simp [startUp, hpar, h0, h1, h2, h3, order, startedOks, stops] <;>
      intro s <;> cases s <;> rfl

/-- C1 witness: with the ECSManager failing to start, startUp returns -1,
the log and input subsystems are rolled back in reverse order, and neither
the input subsystem nor any other is left running. -/
theorem c1_startup_rollback_witness :
    (startUp envEcsFails ⟨false, 2⟩).1 = -1 ∧
    stops (startUp envEcsFails ⟨false, 2⟩).2.2 = [Subsys.input, Subsys.log] ∧
    runningAfter (startUp envEcsFails ⟨false, 2⟩).2.2 Subsys.input = false := by
  have h := c1_startup_rollback envEcsFails ⟨false, 2⟩ 2 rfl (by decide) rfl
  exact ⟨h.1, by rw [h.2.2.1]; rfl, h.2.2.2 Subsys.input⟩

/-- Helper: a run of update calls with no termination key press adds the
number of calls to the step count. -/
theorem runOps_updates_step_count (dts : List Int) (s : GMState) :
    (runOps s (dts.map fun dt => Op.upd false dt)).m_step_count =
      s.m_step_count + dts.length := by
  induction dts generalizing s with
  | nil => simp [runOps]
  | cons a tl ih =>
    have hstep : (stepOp s (Op.upd false a)).1 =
        { m_game_over := s.m_game_over, m_step_count := s.m_step_count + 1 } := by
      simp [stepOp, update]
    simp only [List.map_cons, runOps, hstep, ih, List.length_cons]
    omega

/-- C2: after a successful startUp (return value 0) the running flag is true
and the step count is 0, and running update exactly n times with no
termination key press yields step count n. -/
theorem c2_step_counting (env : Env) (st : GMState) (dts : List Int)
    (h : (startUp env st).1 = 0) :
    running (startUp env st).2.1 = true ∧
    (startUp env st).2.1.m_step_count = 0 ∧
    (runOps (startUp env st).2.1 (dts.map fun dt => Op.upd false dt)).m_step_count
      = dts.length := by
  have hst := startUp_ok env st h
  rw [hst]
  refine ⟨rfl, rfl, ?_⟩
  simpa using runOps_updates_step_count dts { m_game_over := false, m_step_count := 0 }

/-- C2 witness: from a fresh state, the all-successful startUp yields
running true, step count 0, and three updates yield step count 3. -/
theorem c2_step_counting_witness :
    running (startUp envAllOk ⟨false, 0⟩).2.1 = true ∧
    (startUp envAllOk ⟨false, 0⟩).2.1.m_step_count = 0 ∧
    (runOps (startUp envAllOk ⟨false, 0⟩).2.1
      (([0, 1, 2] : List Int).map fun dt => Op.upd false dt)).m_step_count
        = ([0, 1, 2] : List Int).length :=
  c2_step_counting envAllOk ⟨false, 0⟩ [0, 1, 2] (by decide)

/-- C6: once the parent and all four subsystems start, startUp returns 0
regardless of the post-startup one-time actions: a null registerSystem is
logged and non-fatal; a failed first scene load triggers one save and
exactly one retried load at the same path, whose failure is logged as a
warning and is also non-fatal. -/
theorem c6_post_start_nonfatal (env : Env) (st : GMState)
    (hpar : env.parentFails = false) (hlog : env.logFails = false)
    (hinp : env.inputFails = false) (hecs : env.ecsFails = false)
    (hser : env.serialFails = false) :
    (startUp env st).1 = 0 ∧
    (env.regFails = true →
       Ev.logw .inputSystemRegFailed ∈ (startUp env st).2.2) ∧
    (env.loadOk1 = true → loads (startUp env st).2.2 = [true]) ∧
    (env.loadOk1 = false →
       loads (startUp env st).2.2 = [false, env.loadOk2] ∧
       savesCount (startUp env st).2.2 = 1 ∧
       (env.loadOk2 = false →
          Ev.logw .defaultSceneLoadWarning ∈ (startUp env st).2.2)) := by
  obtain ⟨p, l, i, e, s, r, o1, o2⟩ := env
  simp only at hpar hlog hinp hecs hser
  subst hpar hlog hinp hecs hser
  cases r <;> cases o1 <;> cases o2 <;>
    simp [startUp, loads, savesCount]

/-- C6 witness: with registerSystem failing and both scene loads failing,
startUp still returns 0, exactly one save and two loads happen, and the
warning is logged. -/
theorem c6_post_start_nonfatal_witness :
    (startUp envRecover ⟨false, 0⟩).1 = 0 ∧
    loads (startUp envRecover ⟨false, 0⟩).2.2 = [false, false] ∧
    savesCount (startUp envRecover ⟨false, 0⟩).2.2 = 1 ∧
    Ev.logw LogMsg.defaultSceneLoadWarning ∈ (startUp envRecover ⟨false, 0⟩).2.2 := by
  have h := c6_post_start_nonfatal envRecover ⟨false, 0⟩ rfl rfl rfl rfl rfl
  have h2 := h.2.2.2 rfl
  exact ⟨h.1, h2.1, h2.2.1, h2.2.2 rfl⟩

/-- C9: whenever startUp returns -1, the observable GameManager state is
unchanged: m_step_count and m_game_over (hence running) hold the values
they held before the call; the reset to 0 and the clearing of the game-over
flag happen only on the success path. -/
theorem c9_failed_startup_preserves_state (env : Env) (st : GMState)
    (h : (startUp env st).1 = -1) :
    (startUp env st).2.1 = st := by
  rcases startUp_cases env st with ⟨h1, _⟩ | ⟨_, h2⟩
  · rw [h] at h1; exact absurd h1 (by decide)
  · exact h2

/-- C9 witness: with the LogManager failing to start, the state before the
call is returned untouched. -/
theorem c9_failed_startup_preserves_state_witness :
    (startUp envLogFails ⟨false, 7⟩).2.1 = ⟨false, 7⟩ :=
  c9_failed_startup_preserves_state envLogFails ⟨false, 7⟩ (by decide)

/-- C3 counterexample: after an update call during which the termination key
is just pressed, running is false, yet one subsequent public
setGameOver(false) call makes running true again with no intervening
startUp — so running does not remain false until the next startUp. -/
theorem c3_cex_setGameOver_false :
    running (stepOp ⟨false, 0⟩ (.upd true 0)).1 = false ∧
    running (stepOp (stepOp ⟨false, 0⟩ (.upd true 0)).1 (.setOver false)).1 = true := by
  refine ⟨rfl, rfl⟩

/-- C3 (amended): after any update call during which the termination key is
just pressed, running is false by the end of that call, and it remains
false across any further sequence of public operations that contains no
startUp and no explicit setGameOver(false) call. -/
theorem c3_termination_latches (st : GMState) (dt : Int) (ops : List Op)
    (hops : ∀ o ∈ ops, o.isStart = false ∧ o ≠ Op.setOver false) :
    running (stepOp st (.upd true dt)).1 = false ∧
    running (runOps (stepOp st (.upd true dt)).1 ops) = false := by
  have h1 : running (stepOp st (.upd true dt)).1 = false := by
    simp [stepOp, update, setGameOver, running]
  refine ⟨h1, ?_⟩
  have key : ∀ (l : List Op) (s : GMState),
      (∀ o ∈ l, o.isStart = false ∧ o ≠ Op.setOver false) →
      running s = false → running (runOps s l) = false := by
    intro l
    induction l with
    | nil => intro s _ hs; simpa [runOps] using hs
    | cons o tl ih =>
      intro s hl hs
      have ho := hl o (List.mem_cons_self o tl)
      have htl : ∀ o2 ∈ tl, o2.isStart = false ∧ o2 ≠ Op.setOver false :=
        fun o2 hm => hl o2 (List.mem_cons_of_mem o hm)
      have hgo : s.m_game_over = true := by
        simpa [running] using hs
      have hstep : running (stepOp s o).1 = false := by
        cases o with
        | start env => simp [Op.isStart] at ho
        | upd esc dt2 =>
          cases esc <;> simp [stepOp, update, setGameOver, running, hgo]
        | shut => simp [stepOp, shutDown, setGameOver, running]
        | setOver g =>
          cases g with
          | false => exact absurd rfl ho.2
          | true => simp [stepOp, setGameOver, running]
      exact ih (stepOp s o).1 htl hstep
  exact key ops (stepOp st (.upd true dt)).1 hops h1

/-- C3 witness: a concrete termination-key update followed by a plain
update and a shutDown leaves running false throughout. -/
theorem c3_termination_latches_witness :
    running (stepOp ⟨false, 3⟩ (.upd true 1)).1 = false ∧
    running (runOps (stepOp ⟨false, 3⟩ (.upd true 1)).1
      [Op.upd false 2, Op.shut]) = false :=
  c3_termination_latches ⟨false, 3⟩ 1 [Op.upd false 2, Op.shut] (by decide)

/-- C7 counterexample: from a state where running is false, the public
setGameOver(false) operation makes running true, so running transitions
from false to true outside any successful startUp, contrary to the claim. -/
theorem c7_cex_setGameOver_false :
    running (⟨true, 5⟩ : GMState) = false ∧
    running (stepOp ⟨true, 5⟩ (.setOver false)).1 = true := by
  refine ⟨rfl, rfl⟩

/-- C7 (amended): per public operation, the step count is unchanged, or
incremented by exactly one inside update, or reset to 0 inside a successful
startUp (so it is never decremented otherwise); running transitions false
to true only inside a successful startUp or via an explicit
setGameOver(false) call; and running transitions true to false only via an
explicit termination request (the termination key inside update, or
setGameOver(true)) or inside shutDown. -/
theorem c7_transition_invariants (st : GMState) (o : Op) :
    ((stepOp st o).1.m_step_count = st.m_step_count ∨
     (∃ esc dt, o = Op.upd esc dt ∧
        (stepOp st o).1.m_step_count = st.m_step_count + 1) ∨
     (∃ env, o = Op.start env ∧ (startUp env st).1 = 0 ∧
        (stepOp st o).1.m_step_count = 0)) ∧
    (running st = false → running (stepOp st o).1 = true →
       (∃ env, o = Op.start env ∧ (startUp env st).1 = 0) ∨
       o = Op.setOver false) ∧
    (running st = true → running (stepOp st o).1 = false →
       (∃ dt, o = Op.upd true dt) ∨ o = Op.setOver true ∨ o = Op.shut) := by
  cases o with
  | start env =>
    rcases startUp_cases env st with ⟨h1, h2⟩ | ⟨h1, h2⟩
    · refine ⟨Or.inr (Or.inr ⟨env, rfl, h1, by simp [stepOp, h2]⟩), ?_, ?_⟩
      · intro _ _; exact Or.inl ⟨env, rfl, h1⟩
      · intro hr hr2
        rw [show (stepOp st (Op.start env)).1 = (startUp env st).2.1 from rfl,
            h2] at hr2
        exact absurd hr2 (by simp [running])
    · refine ⟨Or.inl (by simp [stepOp, h2]), ?_, ?_⟩
      · intro hr hr2
        rw [show (stepOp st (Op.start env)).1 = (startUp env st).2.1 from rfl,
            h2] at hr2
        rw [hr] at hr2
        exact absurd hr2 (by decide)
      · intro hr hr2
        rw [show (stepOp st (Op.start env)).1 = (startUp env st).2.1 from rfl,
            h2] at hr2
        rw [hr] at hr2
        exact absurd hr2 (by decide)
  | upd esc dt =>
    refine ⟨Or.inr (Or.inl ⟨esc, dt, rfl, ?_⟩), ?_, ?_⟩
    · cases esc <;> simp [stepOp, update, setGameOver]
    · intro hr hr2
      have hgo : st.m_game_over = true := by simpa [running] using hr
      cases esc <;>
        simp [stepOp, update, setGameOver, running, hgo] at hr2
    · intro hr hr2
      cases esc with
      | false =>
        have hgo : st.m_game_over = false := by
          simpa [running] using hr
        exact absurd hr2 (by simp [stepOp, update, setGameOver, running, hgo])
      | true => exact Or.inl ⟨dt, rfl⟩
  | shut =>
    refine ⟨Or.inl (by simp [stepOp, shutDown, setGameOver]), ?_, ?_⟩
    · intro _ hr2
      exact absurd hr2 (by simp [stepOp, shutDown, setGameOver, running])
    · intro _ _; exact Or.inr (Or.inr rfl)
  | setOver g =>
    refine ⟨Or.inl (by simp [stepOp, setGameOver]), ?_, ?_⟩
    · intro hr hr2
      cases g with
      | false => exact Or.inr rfl
      | true => exact absurd hr2 (by simp [stepOp, setGameOver, running])
    · intro hr hr2
      cases g with
      | false => exact absurd hr2 (by simp [stepOp, setGameOver, running])
      | true => exact Or.inr (Or.inl rfl)

/-- C7 witness: at the concrete false-running state and the
setGameOver(false) operation, the false-to-true transition clause of the
invariant theorem fires with both inner hypotheses discharged. -/
theorem c7_transition_invariants_witness :
    (∃ env, Op.setOver false = Op.start env ∧
       (startUp env ⟨true, 5⟩).1 = 0) ∨
    Op.setOver false = Op.setOver false := by
  have h := c7_transition_invariants ⟨true, 5⟩ (Op.setOver false)
  exact h.2.1 rfl rfl

end gam300
